import Mathlib

/-!
Shallow embedding of `src/jackett_script.py` (jackett-tribler-connector).

The script builds Torznab query URLs for a Jackett service, parses the
returned RSS/XML feed into a dictionary from torrent key to torrent link,
and runs two fixed-interval polling loops with manual start/stop.

External library code (the `xml.etree.ElementTree` parser, `aiohttp`, the
asyncio event loop) is out of scope: the outcome of `ElementTree.fromstring`
is modelled as an `Except` value handed to the functions that consume it,
HTTP task handles and the client session are modelled as opaque identifiers.
-/

/- ## XML element model (`xml.etree.ElementTree.Element`)

An element carries a tag, an attribute dictionary, optional text content and
a list of child elements.  ElementTree stores a namespaced tag such as
`torznab:attr` in expanded form, with the namespace URI in braces before the
local name. -/

inductive Element where
  | mk (tag : String) (attrib : List (String × String)) (text : Option String)
       (children : List Element)

def Element.tag : Element → String
  | .mk t _ _ _ => t

def Element.attrib : Element → List (String × String)
  | .mk _ a _ _ => a

def Element.text : Element → Option String
  | .mk _ _ tx _ => tx

def Element.children : Element → List Element
  | .mk _ _ _ cs => cs

/-- `Element.get(key)`: attribute lookup, `None` when the attribute is absent. -/
def Element.get (e : Element) (key : String) : Option String :=
  (e.attrib.find? (fun p => p.1 = key)).map Prod.snd

/-- `Element.find(tag)`: first direct child with the given tag, else `None`. -/
def Element.find (e : Element) (tag : String) : Option Element :=
  e.children.find? (fun c => c.tag = tag)

/-- `Element.findall(tag)`: all direct children with the given tag, in order. -/
def Element.findall (e : Element) (tag : String) : List Element :=
  e.children.filter (fun c => c.tag = tag)

mutual

/-- `Element.iter(tag)`: all elements of the subtree (the element itself
included) whose tag matches, in document order. -/
def Element.iterTag (tag : String) : Element → List Element
  | .mk t a tx cs =>
      (if t = tag then [Element.mk t a tx cs] else []) ++ iterTagList tag cs

def iterTagList (tag : String) : List Element → List Element
  | [] => []
  | c :: cs => Element.iterTag tag c ++ iterTagList tag cs

end

/-- Python truthiness of an optional string: `None` and `""` are falsy. -/
def truthy : Option String → Bool
  | none => false
  | some s => !s.isEmpty

/- ## Feed extractor (`JackettFeedParser._get_torznab_attribute`, `_parse_links`)

`RSS_TORZNAB_NAMESPACES` maps the prefix `torznab` to its namespace URI, so
`item.findall('torznab:attr', RSS_TORZNAB_NAMESPACES)` matches children whose
expanded ElementTree tag is the namespace URI in braces followed by `attr`. -/

def torznabAttrTag : String := "\x7bhttp://torznab.com/schemas/2015/feed\x7dattr"

/-- Body of the loop of `_get_torznab_attribute` for one `torznab:attr`
element: `if tag.get('name') == name and tag.get('value'): return
tag.get('value')` — the name attribute must equal `name` and the value
attribute must be truthy (present and non-empty). -/
def torznabAttrValue (name : String) (t : Element) : Option String :=
  match t.get "name", t.get "value" with
  | some n, some v => if n = name && !v.isEmpty then some v else none
  | _, _ => none

/-- `_get_torznab_attribute(item, name)`: raises `ValueError` unless `item`
is an `Element` with tag `item` (the type check always holds in this
embedding); otherwise returns the `value` of the first `torznab:attr` child
whose `name` attribute matches and whose `value` is non-empty, else `None`. -/
def get_torznab_attribute (item : Element) (name : String) :
    Except String (Option String) :=
  if item.tag ≠ "item" then
    .error "The item parameter is either not of Element type or does not point to an <item> tag"
  else
    .ok ((item.findall torznabAttrTag).findSome? (torznabAttrValue name))

/-- The value `_get_torznab_attribute` returns on the tags it accepts
(every element produced by `rss_xml.iter('item')` has tag `item`, so inside
`_parse_links` the `ValueError` branch is unreachable — see
`get_torznab_attribute_of_item` and `tag_of_mem_iterTag`). -/
def torznabLookup (item : Element) (name : String) : Option String :=
  (item.findall torznabAttrTag).findSome? (torznabAttrValue name)

/-- Key resolution of one `item` element in `_parse_links` (lines 197-202):
`key = self._get_torznab_attribute(item, "infohash")`, then
`if (not key) and item.find('title') is not None: key = item.find('title').text`,
and the item is processed only `if key:` (truthy), which this function
expresses by returning `some` exactly for a truthy final key. -/
def resolveKey (item : Element) : Option String :=
  let key0 := torznabLookup item "infohash"
  let key1 :=
    match truthy key0, item.find "title" with
    | false, some t => t.text
    | _, _ => key0
  if truthy key1 then key1 else none

/-- Link resolution of one `item` element in `_parse_links` (lines 203-206):
`val = self._get_torznab_attribute(item, "magneturl")`, then
`if not val and item.find('link') is not None: val = item.find('link').text`.
No truthiness filter is applied to the final value. -/
def resolveLink (item : Element) : Option String :=
  let val0 := torznabLookup item "magneturl"
  match truthy val0, item.find "link" with
  | false, some l => l.text
  | _, _ => val0

/- ## Python dict model

`torrent_dict` is a Python dict from string keys to optional string values.
Assignment to an existing key replaces its value in place (keys stay unique
and keep their first-insertion position); assignment to a new key appends. -/

abbrev Dict : Type := List (String × Option String)

def dictEmpty : Dict := []

/-- `d[k] = v` for a Python dict: replace the value at an existing key,
else append the new binding at the end. -/
def dictInsert : Dict → String → Option String → Dict
  | [], k, v => [(k, v)]
  | (k1, v1) :: rest, k, v =>
      if k1 = k then (k1, v) :: rest else (k1, v1) :: dictInsert rest k v

/-- `k in d` / key membership. -/
def dictMem (d : Dict) (k : String) : Bool :=
  match d with
  | [] => false
  | (k1, _) :: rest => k1 = k || dictMem rest k

/-- `d[k]` as an optional read: `some v` when the key is bound to `v`. -/
def dictLookup : Dict → String → Option (Option String)
  | [], _ => none
  | (k1, v1) :: rest, k => if k1 = k then some v1 else dictLookup rest k

/-- `list(d.keys())`: the keys in insertion order. -/
def dictKeys (d : Dict) : List String := d.map Prod.fst

/-- Processing of one `item` element by the loop body of `_parse_links`
(lines 195-208): when the resolved key is truthy, insert it with the
resolved link (which may be `none`); otherwise leave the dict unchanged. -/
def processItem (d : Dict) (item : Element) : Dict :=
  match resolveKey item with
  | some k => dictInsert d k (resolveLink item)
  | none => d

/-- The pure part of `_parse_links` after `ElementTree.fromstring` succeeded:
fold the item processing over `rss_xml.iter('item')` in document order,
starting from the empty dict. -/
def parse_links_tree (rss_xml : Element) : Dict :=
  (Element.iterTag "item" rss_xml).foldl processItem dictEmpty

/-- `_parse_links(input)`: `ElementTree.fromstring` is external library code,
so its outcome is taken as input — `.error msg` models a raised
`ElementTree.ParseError` (propagated unchanged), `.ok rss_xml` the parsed
root element, from which the torrent dict is built. -/
def parse_links (parsed : Except String Element) : Except String Dict :=
  match parsed with
  | .error msg => .error msg
  | .ok rss_xml => .ok (parse_links_tree rss_xml)

/- ## `CATEGORY_STRING` and the Jackett request builders -/

/-- Removal of one trailing newline, if present. -/
def stripFinalNewline (s : String) : String :=
  if s.data.getLast? = some (Char.ofNat 10) then String.mk s.data.dropLast
  else s

mutual

/-- Full-match test for the regex fragment `([0-9]+,)*[0-9]+`, as the
deterministic automaton it denotes, in the state where a digit group must
begin: a digit moves to `catGroupsAfterDigit`, everything else (the end of
the text included) rejects. -/
def catGroups : List Char → Bool
  | [] => false
  | c :: cs => c.isDigit && catGroupsAfterDigit cs

/-- State of the `([0-9]+,)*[0-9]+` automaton after at least one digit of
the current group: the end of the text accepts, a comma starts the next
group, a digit stays, everything else rejects. -/
def catGroupsAfterDigit : List Char → Bool
  | [] => true
  | c :: cs =>
      if c = Char.ofNat 44 then catGroups cs
      else c.isDigit && catGroupsAfterDigit cs

end

/-- Truthiness of `CATEGORY_STRING.match(cat)` with
`CATEGORY_STRING = re.compile("(^([0-9]+,)*[0-9]+$|(^$))")`.
`re.match` anchors at position 0; without `re.MULTILINE`, Python `$` matches
at the end of the string or just before a single newline that ends the
string.  Hence the first alternative `^([0-9]+,)*[0-9]+$` accepts exactly
the strings whose text, after removing at most one trailing newline,
matches `([0-9]+,)*[0-9]+` in full, and the second alternative `^$` accepts
exactly the empty string and the lone newline. -/
def CATEGORY_STRING_match (cat : String) : Bool :=
  (stripFinalNewline cat).isEmpty || catGroups (stripFinalNewline cat).data

/-- Splitting a character list on the comma character, Python
`str.split(",")` style: n commas yield n+1 (possibly empty) groups. -/
def splitOnComma : List Char → List (List Char)
  | [] => [[]]
  | c :: cs =>
      if c = Char.ofNat 44 then [] :: splitOnComma cs
      else (c :: (splitOnComma cs).headD []) :: (splitOnComma cs).tail

/-- The category-string language as the spec words it (stated for the
refinement comparison, not read off the source): the empty string, or a
comma-separated list of non-negative integers with no trailing comma —
splitting on commas yields only non-empty all-digit groups. -/
def specCatValid (cat : String) : Bool :=
  cat.isEmpty ||
    (splitOnComma cat.data).all (fun g => !g.isEmpty && g.all Char.isDigit)

/-- `JackettRequestConstructor.__init__` fields. -/
structure JackettRequestConstructor where
  ip : String
  port : Nat
  api_key : String

/-- `JackettRequestConstructor._url_constructor(query_type, tracker,
**kwargs)`: the base URL followed by one `&k=v` fragment per keyword
argument, in keyword order (Python keeps keyword-argument insertion order).
-/
def url_constructor (self : JackettRequestConstructor) (query_type : String)
    (tracker : String) (kwargs : List (String × String)) : String :=
  "http://" ++ self.ip ++ ":" ++ toString self.port ++ "/api/v2.0/indexers/"
    ++ tracker ++ "/results/torznab/api?t=" ++ query_type ++ "&apikey="
    ++ self.api_key
    ++ String.join (kwargs.map (fun kv => "&" ++ kv.1 ++ "=" ++ kv.2))

/-- `JackettRequestConstructor.search_request(q, limit, cat, maxage, offset,
tracker)` (defaults q="", limit=50, cat="", maxage=100, offset=0,
tracker="all"): raises `ValueError` when `CATEGORY_STRING` does not match
`cat`, before any URL is constructed; otherwise renders the search URL with
the five keyword parameters in declaration order. -/
def search_request (self : JackettRequestConstructor) (q : String)
    (limit : Nat) (cat : String) (maxage : Nat) (offset : Nat)
    (tracker : String) : Except String String :=
  if !CATEGORY_STRING_match cat then
    .error "The cat parameter is incorrectly formatted"
  else
    .ok (url_constructor self "search" tracker
      [("q", q), ("limit", toString limit), ("cat", cat),
       ("maxage", toString maxage), ("offset", toString offset)])

/-- `JackettRequestConstructor.get_tracker_feed(tracker)`: calls
`_url_constructor(query_type="search", tracker=tracker)` with no further
keyword arguments. -/
def get_tracker_feed (self : JackettRequestConstructor) (tracker : String) :
    String :=
  url_constructor self "search" tracker []

/-- Bool success test for an `Except` result (the call returned normally). -/
def exceptOk {ε α : Type} (e : Except ε α) : Bool :=
  match e with
  | .ok _ => true
  | .error _ => false

/- ## One cycle of `JackettFeedParser._loop_requests`

The loop body fetches the feed text, runs `_parse_links` on it inside
`try/except ElementTree.ParseError`, prints the link of the first key
(`torrent_links[list(torrent_links.keys())[0]]`) still inside the `try`,
and in the `else` branch submits all links via `_add_torrents` before
sleeping `request_interval` seconds and repeating.  The fetched document is
represented by the outcome of `ElementTree.fromstring` on it. -/

structure CycleOutcome where
  /-- Message printed to stderr by the `except ElementTree.ParseError` arm. -/
  reportedError : Option String
  /-- Torrent dict submitted to Tribler via `_add_torrents`, when reached. -/
  submitted : Option Dict
  /-- The cycle reaches `asyncio.sleep(request_interval)` and repeats;
  `false` means an uncaught exception ends the `_loop_requests` task. -/
  continues : Bool
deriving DecidableEq

/-- One iteration of the `while True:` loop of `_loop_requests`.  On a parse
error the exception is caught, printed, and the cycle still sleeps and
repeats with nothing submitted.  On parse success the loop first evaluates
`torrent_links[list(torrent_links.keys())[0]]`: for an empty dict,
`list(...)[0]` raises `IndexError`, which no handler catches (the `except`
clause only catches `ElementTree.ParseError`), so the task dies before any
submission; otherwise the dict is submitted and the cycle repeats. -/
def loop_requests_cycle (fetched : Except String Element) : CycleOutcome :=
  match fetched with
  | .error msg =>
      { reportedError := some msg, submitted := none, continues := true }
  | .ok rss_xml =>
      let torrent_links := parse_links_tree rss_xml
      match dictKeys torrent_links with
      | [] => { reportedError := none, submitted := none, continues := false }
      | _ :: _ =>
          { reportedError := none, submitted := some torrent_links,
            continues := true }

/-- A finite prefix of the `while True:` loop of `_loop_requests`, driven by
the fetch-and-parse outcomes of the successive cycles: each executed cycle
contributes its outcome, and a cycle that does not reach the sleep (an
uncaught exception) ends the task, so later outcomes are never executed. -/
def loop_requests_run : List (Except String Element) → List CycleOutcome
  | [] => []
  | f :: fs =>
      let c := loop_requests_cycle f
      if c.continues then c :: loop_requests_run fs else [c]

/- ## Lifecycle (`JackettFeedParser.start` / `stop`)

Task handles and the aiohttp client session are opaque resources; a session
is absent (`self._session is None`), open, or closed (`close()` was awaited;
the attribute itself is never reset to `None` by `stop`). -/

inductive SessionState where
  | absent
  | opened (id : Nat)
  | closed (id : Nat)
deriving DecidableEq

/-- The mutable state of a `JackettFeedParser`: the two task handles
(`None` initially), the session, and the two configured intervals. -/
structure ParserState where
  request_task : Option Nat
  commit_task : Option Nat
  session : SessionState
  request_interval : Nat
  commit_interval : Nat
deriving DecidableEq

/-- `start()`: `if self._request_task: return` (an asyncio task object is
always truthy, `None` is falsy), else create a fresh client session and the
two loop tasks.  The fresh resource identities are passed in. -/
def ParserState.start (self : ParserState)
    (newSession newRequestTask newCommitTask : Nat) : ParserState :=
  if self.request_task.isSome then self
  else
    { self with
        session := .opened newSession,
        request_task := some newRequestTask,
        commit_task := some newCommitTask }

/-- `stop()`: `self._request_task.cancel()`, clear the handle, same for
`self._commit_task`, then `await self._session.close()`.  Each step performed
on a `None` attribute raises `AttributeError`; the error case carries the
partially mutated state reached when the exception propagates. -/
def ParserState.stop (self : ParserState) :
    Except (String × ParserState) ParserState :=
  match self.request_task with
  | none => .error ("AttributeError: NoneType object has no attribute cancel",
      self)
  | some _ =>
    let s1 : ParserState := { self with request_task := none }
    match s1.commit_task with
    | none => .error ("AttributeError: NoneType object has no attribute cancel",
        s1)
    | some _ =>
      let s2 : ParserState := { s1 with commit_task := none }
      match s2.session with
      | .absent => .error
          ("AttributeError: NoneType object has no attribute close", s2)
      | .opened i => .ok { s2 with session := .closed i }
      | .closed i => .ok { s2 with session := .closed i }

/- ## Concrete instances used as witnesses -/

/-- A well-formed feed document with no `item` element anywhere. -/
def rootNoItems : Element :=
  .mk "rss" [] none
    [.mk "channel" [] none [.mk "title" [] (some "feed") []]]

/-- An `item` element carrying neither a Torznab `infohash` attribute nor a
`title` child, only a `link` child: no key can be resolved for it. -/
def itemNoKey : Element :=
  .mk "item" [] none [.mk "link" [] (some "http://example/dl") []]

/-- An `item` element whose key resolves through the `title` fallback and
whose link resolves to nothing (no `magneturl` attribute, no `link` child).
-/
def itemKeyNoLink : Element :=
  .mk "item" [] none [.mk "title" [] (some "K") []]

/-- A feed document holding `itemKeyNoLink` as its only item. -/
def rootOneItem : Element :=
  .mk "rss" [] none [.mk "channel" [] none [itemKeyNoLink]]

/-- First of two items resolving to the same key `K`. -/
def itemK1 : Element :=
  .mk "item" [] none
    [.mk "title" [] (some "K") [], .mk "link" [] (some "http://one") []]

/-- Second of two items resolving to the same key `K`. -/
def itemK2 : Element :=
  .mk "item" [] none
    [.mk "title" [] (some "K") [], .mk "link" [] (some "http://two") []]

/-- A feed document holding `itemK1` before `itemK2` in document order. -/
def rootTwoItems : Element :=
  .mk "rss" [] none [.mk "channel" [] none [itemK1, itemK2]]

/-- A concrete request constructor. -/
def testJackett : JackettRequestConstructor :=
  { ip := "localhost", port := 9117, api_key := "APIKEY" }

/-- A parser whose pollers are running. -/
def runningParser : ParserState :=
  { request_task := some 1, commit_task := some 2, session := .opened 3,
    request_interval := 600, commit_interval := 3600 }

/-- A freshly constructed (stopped) parser: both task handles and the
session are `None`. -/
def stoppedParser : ParserState :=
  { request_task := none, commit_task := none, session := .absent,
    request_interval := 600, commit_interval := 3600 }

/- ## Supporting lemmas -/

theorem get_torznab_attribute_of_item (item : Element) (name : String)
    (h : item.tag = "item") :
    get_torznab_attribute item name = .ok (torznabLookup item name) := by
  simp [get_torznab_attribute, torznabLookup, h]

mutual

/-- Every element produced by `Element.iterTag tag` carries the tag that was
searched for; in particular `rss_xml.iter('item')` yields only `<item>`
elements, so the `ValueError` branch of `_get_torznab_attribute` is
unreachable from `_parse_links`. -/
theorem tag_of_mem_iterTag (tag : String) (e root : Element)
    (h : e ∈ Element.iterTag tag root) : e.tag = tag := by
  cases root with
  | mk t a tx cs =>
    rw [Element.iterTag] at h
    rcases List.mem_append.mp h with h1 | h2
    · split at h1
      · rename_i ht
        rw [List.mem_singleton] at h1
        subst h1
        exact ht
      · simp at h1
    · exact tag_of_mem_iterTagList tag e cs h2

/-- List form of `tag_of_mem_iterTag`. -/
theorem tag_of_mem_iterTagList (tag : String) (e : Element)
    (l : List Element) (h : e ∈ iterTagList tag l) : e.tag = tag := by
  cases l with
  | nil => simp [iterTagList] at h
  | cons c cs =>
    rw [iterTagList] at h
    rcases List.mem_append.mp h with h1 | h2
    · exact tag_of_mem_iterTag tag e c h1
    · exact tag_of_mem_iterTagList tag e cs h2

end

/-- `torznabAttrValue` only returns values that passed the truthiness test
`tag.get('value')`, so the value is never the empty string. -/
theorem torznabAttrValue_ne_empty {name : String} {t : Element} {v : String}
    (h : torznabAttrValue name t = some v) : v.isEmpty = false := by
  unfold torznabAttrValue at h
  split at h
  · split at h
    · rename_i hcond
      cases h
      simpa using (Bool.and_eq_true _ _ |>.mp hcond).2
    · exact absurd h (by simp)
  · exact absurd h (by simp)

/-- `List.findSome?` form of `torznabAttrValue_ne_empty`. -/
theorem findSome?_torznabAttrValue_ne_empty {name v : String} :
    ∀ l : List Element,
      l.findSome? (torznabAttrValue name) = some v → v.isEmpty = false := by
  intro l
  induction l with
  | nil => intro h; simp [List.findSome?] at h
  | cons a l ih =>
      intro h
      rw [List.findSome?_cons] at h
      cases ha : torznabAttrValue name a with
      | some b =>
          rw [ha] at h
          cases h
          exact torznabAttrValue_ne_empty ha
      | none =>
          rw [ha] at h
          exact ih h

/-- A `_get_torznab_attribute` result is truthy exactly when it is `some`:
the empty string can never be returned. -/
theorem truthy_torznabLookup (item : Element) (name : String) :
    truthy (torznabLookup item name) = (torznabLookup item name).isSome := by
  cases h : torznabLookup item name with
  | none => simp [truthy]
  | some v =>
      have := findSome?_torznabAttrValue_ne_empty
        (item.findall torznabAttrTag) h
      simp [truthy, this]

/-- Reading a Python dict after an assignment: the assigned key now maps to
the new value, every other key is untouched. -/
theorem dictLookup_dictInsert (d : Dict) (k k2 : String) (v : Option String) :
    dictLookup (dictInsert d k v) k2 =
      if k2 = k then some v else dictLookup d k2 := by
  induction d with
  | nil =>
      by_cases h : k2 = k
      · simp [dictInsert, dictLookup, h]
      · simp [dictInsert, dictLookup, h, Ne.symm h]
  | cons p rest ih =>
      obtain ⟨k1, v1⟩ := p
      by_cases h1 : k1 = k
      · subst h1
        by_cases h2 : k2 = k1
        · subst h2
          simp [dictInsert, dictLookup]
        · have h2s : ¬(k1 = k2) := fun h => h2 h.symm
          simp [dictInsert, dictLookup, h2, h2s]
      · by_cases h2 : k1 = k2
        · subst h2
          simp [dictInsert, dictLookup, h1]
        · simp [dictInsert, dictLookup, h1, h2, ih]

/-- Key membership after an assignment: the assigned key and the previous
keys. -/
theorem dictMem_dictInsert (d : Dict) (k k2 : String) (v : Option String) :
    dictMem (dictInsert d k v) k2 = true ↔
      (k2 = k ∨ dictMem d k2 = true) := by
  induction d with
  | nil =>
      simp only [dictInsert, dictMem, Bool.or_false, decide_eq_true_eq]
      exact ⟨fun h => Or.inl h.symm, fun h => by
        rcases h with h | h
        · exact h.symm
        · cases h⟩
  | cons p rest ih =>
      obtain ⟨k1, v1⟩ := p
      by_cases h1 : k1 = k
      · subst h1
        simp only [dictInsert, if_pos rfl, dictMem, Bool.or_eq_true,
          decide_eq_true_eq]
        constructor
        · rintro (h | h)
          · exact Or.inl h.symm
          · exact Or.inr (Or.inr h)
        · rintro (h | h | h)
          · exact Or.inl h.symm
          · exact Or.inl h
          · exact Or.inr h
      · simp only [dictInsert, if_neg h1, dictMem, Bool.or_eq_true,
          decide_eq_true_eq, ih]
        tauto

/-- Key membership of the dict built by folding `processItem`: exactly the
keys resolved from the processed items, next to whatever the fold started
from. -/
theorem dictMem_foldl_processItem (l : List Element) (d : Dict) (k : String) :
    dictMem (l.foldl processItem d) k = true ↔
      (dictMem d k = true ∨ ∃ it ∈ l, resolveKey it = some k) := by
  induction l generalizing d with
  | nil => simp
  | cons it l ih =>
      rw [List.foldl_cons, ih]
      cases hk : resolveKey it with
      | none =>
          simp only [processItem, hk, List.mem_cons]
          constructor
          · rintro (h | h)
            · exact Or.inl h
            · exact Or.inr ⟨h.choose, Or.inr h.choose_spec.1, h.choose_spec.2⟩
          · rintro (h | ⟨x, hx | hx, hres⟩)
            · exact Or.inl h
            · subst hx; rw [hk] at hres; cases hres
            · exact Or.inr ⟨x, hx, hres⟩
      | some k1 =>
          simp only [processItem, hk, dictMem_dictInsert, List.mem_cons]
          constructor
          · rintro ((h | h) | h)
            · exact Or.inr ⟨it, Or.inl rfl, by rw [hk, h]⟩
            · exact Or.inl h
            · exact Or.inr ⟨h.choose, Or.inr h.choose_spec.1, h.choose_spec.2⟩
          · rintro (h | ⟨x, hx | hx, hres⟩)
            · exact Or.inl (Or.inr h)
            · subst hx
              rw [hk] at hres
              exact Or.inl (Or.inl (Option.some.inj hres).symm)
            · exact Or.inr ⟨x, hx, hres⟩

/-- Reading one key of the dict built by folding `processItem`: the link of
the last processed item resolving that key wins; when no processed item
resolves it, the key reads as it did in the starting dict. -/
theorem dictLookup_foldl_processItem (l : List Element) (d : Dict)
    (k : String) :
    dictLookup (l.foldl processItem d) k =
      match l.reverse.find? (fun it => resolveKey it = some k) with
      | some it => some (resolveLink it)
      | none => dictLookup d k := by
  induction l generalizing d with
  | nil => simp
  | cons it l ih =>
      rw [List.foldl_cons, ih, List.reverse_cons, List.find?_append]
      cases hrest : l.reverse.find? (fun it => resolveKey it = some k) with
      | some r => simp [Option.or]
      | none =>
          simp only [Option.or_none]
          cases hk : resolveKey it with
          | none => simp [List.find?_cons, hk, processItem]
          | some k1 =>
              by_cases hkk : k1 = k
              · subst hkk
                simp [List.find?_cons, hk, processItem,
                  dictLookup_dictInsert]
              · simp [List.find?_cons, hk, processItem,
                  dictLookup_dictInsert, hkk, Ne.symm hkk]

/-- Splitting on commas always yields at least one group. -/
theorem splitOnComma_ne_nil (l : List Char) : splitOnComma l ≠ [] := by
  cases l with
  | nil => simp [splitOnComma]
  | cons c cs =>
      simp only [splitOnComma]
      split <;> simp

/-- The `([0-9]+,)*[0-9]+` automaton accepts exactly the texts whose
comma-split groups are all non-empty and all digits (and its accepting
state corresponds to a current group that may still be empty). -/
theorem catGroups_eq_split (l : List Char) :
    (catGroups l =
      (splitOnComma l).all (fun g => !g.isEmpty && g.all Char.isDigit))
    ∧ (catGroupsAfterDigit l =
      (((splitOnComma l).headD []).all Char.isDigit &&
        ((splitOnComma l).tail).all
          (fun g => !g.isEmpty && g.all Char.isDigit))) := by
  induction l with
  | nil => exact ⟨rfl, rfl⟩
  | cons c cs ih =>
      obtain ⟨ih1, ih2⟩ := ih
      obtain ⟨g0, gs, hs⟩ : ∃ g0 gs, splitOnComma cs = g0 :: gs := by
        cases h : splitOnComma cs with
        | nil => exact absurd h (splitOnComma_ne_nil cs)
        | cons a b => exact ⟨a, b, rfl⟩
      by_cases hc : c = Char.ofNat 44
      · subst hc
        have hd : (Char.ofNat 44).isDigit = false := by decide
        constructor
        · simp [catGroups, splitOnComma, hd]
        · simp [catGroupsAfterDigit, splitOnComma, ih1]
      · constructor
        · simp [catGroups, splitOnComma, hc, ih2, hs, Bool.and_assoc]
        · simp [catGroupsAfterDigit, splitOnComma, hc, ih2, hs,
            Bool.and_assoc]

/-- Appending the empty string is the identity. -/
theorem string_append_empty (s : String) : s ++ "" = s := by
  cases s with
  | mk data =>
      show String.mk (data ++ []) = String.mk data
      rw [List.append_nil]

/- ## Claims -/

/-- C1: in `_parse_links`, the key of an item is resolved by first taking
the value of a Torznab `attr` element named `infohash` whose `value`
attribute is non-empty, otherwise the text of the child `title` element
provided it is present and non-empty, and when neither yields a non-empty
string the item contributes no entry at all to the torrent dict. -/
theorem C1_key_resolution (item : Element) (d : Dict) :
    resolveKey item =
      (match torznabLookup item "infohash" with
       | some h => some h
       | none =>
         match item.find "title" with
         | some t =>
             match t.text with
             | some s => if s.isEmpty then none else some s
             | none => none
         | none => none)
    ∧ (resolveKey item = none → processItem d item = d) := by
  constructor
  · unfold resolveKey
    cases hih : torznabLookup item "infohash" with
    | some h =>
        have hne := findSome?_torznabAttrValue_ne_empty
          (item.findall torznabAttrTag) hih
        cases hft : item.find "title" <;> simp [truthy, hih, hne, hft]
    | none =>
        cases hft : item.find "title" with
        | none => simp [truthy, hih, hft]
        | some t =>
            cases htx : t.text with
            | none => simp [truthy, hih, hft, htx]
            | some s =>
                by_cases hs : s.isEmpty <;> simp [truthy, hih, hft, htx, hs]
  · intro h
    simp [processItem, h]

/-- C1 witness: `itemNoKey` has neither an `infohash` attribute nor a
`title` child, so its key resolves to nothing and processing it leaves the
torrent dict unchanged. -/
theorem C1_key_resolution_witness :
    processItem dictEmpty itemNoKey = dictEmpty :=
  (C1_key_resolution itemNoKey dictEmpty).2 (by decide)

/-- C2: an item is present in the torrent dict iff a non-empty key was
resolved for it; for such an item the insertion binds the key to the
resolved link, the value of a Torznab `attr` element named `magneturl`
with a non-empty value when one exists, else the text of the child `link`
element; when neither resolves, the key is still inserted, bound to the
missing value `none`, rather than skipped. -/
theorem C2_inclusion_iff (root : Element) (k : String) (item : Element)
    (d : Dict) :
    (dictMem (parse_links_tree root) k = true ↔
      ∃ it ∈ Element.iterTag "item" root, resolveKey it = some k)
    ∧ (resolveKey item = some k →
        processItem d item = dictInsert d k (resolveLink item))
    ∧ resolveLink item =
        (match torznabLookup item "magneturl" with
         | some v => some v
         | none =>
            match item.find "link" with
            | some l => l.text
            | none => none) := by
  refine ⟨?_, ?_, ?_⟩
  · rw [parse_links_tree, dictMem_foldl_processItem]
    simp [dictMem, dictEmpty]
  · intro h
    simp [processItem, h]
  · unfold resolveLink
    cases hm : torznabLookup item "magneturl" with
    | some v =>
        have hne := findSome?_torznabAttrValue_ne_empty
          (item.findall torznabAttrTag) hm
        cases hfl : item.find "link" <;> simp [truthy, hm, hne, hfl]
    | none =>
        cases hfl : item.find "link" <;> simp [truthy, hm, hfl]

/-- C2 witness: `itemKeyNoLink` resolves the key `K` but no link, and is
still inserted, bound to `none`. -/
theorem C2_inclusion_iff_witness :
    processItem dictEmpty itemKeyNoLink = [("K", (none : Option String))] := by
  have h := (C2_inclusion_iff rootOneItem "K" itemKeyNoLink dictEmpty).2.1
    (by decide)
  rw [h]
  decide

/-- C3 (amended): the search-request builder validates `cat` before any URL
is constructed — the result is the `ValueError` message exactly when
`CATEGORY_STRING` rejects, and the URL with the five default parameter
fragments exactly when it accepts; and the regex accepts exactly the spec
language ("empty, or comma-separated non-negative integers with no trailing
comma") applied after removing the single trailing newline tolerated by
Python `$`. -/
theorem C3_search_request_validation (c : JackettRequestConstructor)
    (q : String) (limit : Nat) (cat : String) (maxage offset : Nat)
    (tracker : String) :
    (exceptOk (search_request c q limit cat maxage offset tracker)
        = CATEGORY_STRING_match cat)
    ∧ CATEGORY_STRING_match cat = specCatValid (stripFinalNewline cat)
    ∧ (CATEGORY_STRING_match cat = false →
        search_request c q limit cat maxage offset tracker
          = .error "The cat parameter is incorrectly formatted")
    ∧ (CATEGORY_STRING_match cat = true →
        search_request c q limit cat maxage offset tracker
          = .ok (url_constructor c "search" tracker
              [("q", q), ("limit", toString limit), ("cat", cat),
               ("maxage", toString maxage), ("offset", toString offset)])) := by
  refine ⟨?_, ?_, ?_, ?_⟩
  · unfold search_request
    cases h : CATEGORY_STRING_match cat <;> simp [h, exceptOk]
  · unfold CATEGORY_STRING_match specCatValid
    rw [(catGroups_eq_split (stripFinalNewline cat).data).1]
  · intro h
    simp [search_request, h]
  · intro h
    simp [search_request, h]

/-- C3 witness: the malformed category string `1,2,` (trailing comma) is
rejected with the validation error, before any URL exists. -/
theorem C3_search_request_validation_witness :
    search_request testJackett "" 50 "1,2," 100 0 "all"
      = .error "The cat parameter is incorrectly formatted" :=
  (C3_search_request_validation testJackett "" 50 "1,2," 100 0 "all").2.2.1
    (by decide)

/-- C3 counterexample: the string built of the digit one and a newline is
not empty and not a comma-separated list of non-negative integers, yet the
builder succeeds on it, because Python `$` also matches just before a
trailing newline; so the builder does not fail on every string outside the
claimed language. -/
theorem C3_counterexample :
    specCatValid "1\n" = false
    ∧ exceptOk (search_request testJackett "" 50 "1\n" 100 0 "all") = true :=
  ⟨by decide, by decide⟩

/-- C4: when several items resolve to the same key, the final torrent dict
binds that key to the link of the item that appears latest in document
order — the first match in the reversed item list. -/
theorem C4_last_item_wins (root : Element) (k : String) (item : Element)
    (h : (Element.iterTag "item" root).reverse.find?
        (fun it => resolveKey it = some k) = some item) :
    dictLookup (parse_links_tree root) k = some (resolveLink item) := by
  rw [parse_links_tree, dictLookup_foldl_processItem, h]

/-- C4 witness: in `rootTwoItems` both items resolve the key `K`; the
second one, `itemK2`, appears later in document order and its link wins. -/
theorem C4_last_item_wins_witness :
    dictLookup (parse_links_tree rootTwoItems) "K" = some (some "http://two") :=
  C4_last_item_wins rootTwoItems "K" itemK2 (by rfl)

/-- C5: a well-formed document with zero `item` elements extracts to the
empty dict, a parse failure propagates as an error outcome, and the two
are distinguishable results. -/
theorem C5_empty_vs_error (root : Element) (msg : String) (d : Dict) :
    (Element.iterTag "item" root = [] →
      parse_links (.ok root) = .ok dictEmpty)
    ∧ parse_links (.error msg) = .error msg
    ∧ (Except.error msg ≠ (.ok d : Except String Dict)) := by
  refine ⟨?_, rfl, ?_⟩
  · intro h
    simp [parse_links, parse_links_tree, h]
  · intro hcontra
    cases hcontra

/-- C5 witness: the item-free document `rootNoItems` extracts to the empty
dict. -/
theorem C5_empty_vs_error_witness :
    parse_links (.ok rootNoItems) = .ok dictEmpty :=
  (C5_empty_vs_error rootNoItems "junk" dictEmpty).1 (by rfl)

/-- C6 counterexample: at a concrete constructor and tracker, the URL of
the search request with empty query and empty category is not the feed
shorthand URL — the search request appends the five default parameter
fragments that the shorthand omits. -/
theorem C6_counterexample :
    search_request testJackett "" 50 "" 100 0 "all"
      ≠ .ok (get_tracker_feed testJackett "all") := by
  have h1 : search_request testJackett "" 50 "" 100 0 "all"
      = .ok (get_tracker_feed testJackett "all"
          ++ "&q=&limit=50&cat=&maxage=100&offset=0") := rfl
  rw [h1]
  intro h
  have h2 := Except.ok.inj h
  have h3 : get_tracker_feed testJackett "all"
      ++ "&q=&limit=50&cat=&maxage=100&offset=0"
      ≠ get_tracker_feed testJackett "all" := by decide
  exact h3 h2

/-- C6 (amended): the feed shorthand renders the search-type URL for the
tracker with no parameter fragments at all, while the search request with
empty query and empty category succeeds and renders that same URL followed
by the five default parameter fragments — the shorthand is a proper prefix
of it, not equal to it. -/
theorem C6_feed_shorthand (c : JackettRequestConstructor) (tracker : String) :
    get_tracker_feed c tracker = url_constructor c "search" tracker []
    ∧ search_request c "" 50 "" 100 0 tracker
        = .ok (url_constructor c "search" tracker
            [("q", ""), ("limit", "50"), ("cat", ""), ("maxage", "100"),
             ("offset", "0")])
    ∧ url_constructor c "search" tracker
          [("q", ""), ("limit", "50"), ("cat", ""), ("maxage", "100"),
           ("offset", "0")]
        = get_tracker_feed c tracker
            ++ "&q=&limit=50&cat=&maxage=100&offset=0" := by
  refine ⟨rfl, rfl, ?_⟩
  have h0 : get_tracker_feed c tracker
        ++ "&q=&limit=50&cat=&maxage=100&offset=0"
      = get_tracker_feed c tracker
        ++ String.join (List.map (fun kv => "&" ++ kv.1 ++ "=" ++ kv.2)
            [("q", ""), ("limit", "50"), ("cat", ""), ("maxage", "100"),
             ("offset", "0")]) := rfl
  rw [h0]
  show url_constructor c "search" tracker
      [("q", ""), ("limit", "50"), ("cat", ""), ("maxage", "100"),
       ("offset", "0")]
    = url_constructor c "search" tracker []
        ++ String.join (List.map (fun kv => "&" ++ kv.1 ++ "=" ++ kv.2)
            [("q", ""), ("limit", "50"), ("cat", ""), ("maxage", "100"),
             ("offset", "0")])
  unfold url_constructor
  rw [show String.join (List.map (fun kv => "&" ++ kv.1 ++ "=" ++ kv.2)
      ([] : List (String × String))) = "" from rfl]
  rw [string_append_empty]

/-- C7: a poll cycle whose fetched feed fails to parse reports the error to
stderr, submits nothing to the sink, and the loop keeps running — the
remaining cycles execute exactly as they would have. -/
theorem C7_parse_failure_skips_cycle (msg : String)
    (fs : List (Except String Element)) :
    loop_requests_run (.error msg :: fs)
      = { reportedError := some msg, submitted := none, continues := true }
          :: loop_requests_run fs := by
  simp [loop_requests_run, loop_requests_cycle]

/-- C8: calling `start` on an already-running parser returns at the guard:
the state is unchanged — still exactly the one feed-poller task and the one
commit-poller task, the same session resource, the same intervals. -/
theorem C8_start_idempotent (s : ParserState) (ns nr nc r c : Nat)
    (hr : s.request_task = some r) (hc : s.commit_task = some c) :
    s.start ns nr nc = s
    ∧ (s.start ns nr nc).request_task = some r
    ∧ (s.start ns nr nc).commit_task = some c
    ∧ (s.start ns nr nc).session = s.session
    ∧ (s.start ns nr nc).request_interval = s.request_interval
    ∧ (s.start ns nr nc).commit_interval = s.commit_interval := by
  have h1 : s.start ns nr nc = s := by
    simp [ParserState.start, hr]
  rw [h1]
  exact ⟨rfl, hr, hc, rfl, rfl, rfl⟩

/-- C8 witness: starting the already-running `runningParser` again changes
nothing. -/
theorem C8_start_idempotent_witness :
    runningParser.start 7 8 9 = runningParser :=
  (C8_start_idempotent runningParser 7 8 9 1 2 rfl rfl).1

/-- C9 (amended): on a running parser, `stop` cancels both tasks, clears
both handles to `None`, and closes the shared client session; but on an
already-stopped parser the very first statement dereferences the `None`
request-task handle and raises `AttributeError` — stopping twice is not a
safe no-op. -/
theorem C9_stop_behavior (s : ParserState) (r c i : Nat)
    (hr : s.request_task = some r) (hc : s.commit_task = some c)
    (hs : s.session = .opened i) :
    s.stop = .ok { s with request_task := none, commit_task := none,
                          session := .closed i }
    ∧ ∀ s0 : ParserState, s0.request_task = none →
        s0.stop = .error
          ("AttributeError: NoneType object has no attribute cancel", s0) := by
  constructor
  · simp [ParserState.stop, hr, hc, hs]
  · intro s0 h0
    simp [ParserState.stop, h0]

/-- C9 witness: stopping the running parser clears both handles and closes
the session. -/
theorem C9_stop_behavior_witness :
    runningParser.stop = .ok ⟨none, none, .closed 3, 600, 3600⟩ :=
  (C9_stop_behavior runningParser 1 2 3 rfl rfl rfl).1

/-- C9 counterexample: calling `stop` on the freshly constructed (stopped)
parser raises `AttributeError` instead of being a harmless no-op. -/
theorem C9_counterexample :
    exceptOk stoppedParser.stop = false
    ∧ stoppedParser.stop = .error
        ("AttributeError: NoneType object has no attribute cancel",
          stoppedParser) :=
  ⟨rfl, rfl⟩

/-- C10: a poll cycle whose document parses successfully to an empty
torrent dict evaluates `list(torrent_links.keys())[0]` and dies of the
uncaught `IndexError`: nothing is reported through the parse-error handler,
nothing is submitted, the cycle never reaches its sleep, and the remaining
cycles never run. -/
theorem C10_empty_dict_kills_poller (root : Element)
    (fs : List (Except String Element))
    (h : parse_links_tree root = dictEmpty) :
    loop_requests_run (.ok root :: fs)
      = [{ reportedError := none, submitted := none, continues := false }] := by
  simp [loop_requests_run, loop_requests_cycle, h, dictKeys, dictEmpty]

/-- C10 witness: a fetched document with zero items kills the poller task
on the spot. -/
theorem C10_empty_dict_kills_poller_witness :
    loop_requests_run [.ok rootNoItems]
      = [{ reportedError := none, submitted := none, continues := false }] :=
  C10_empty_dict_kills_poller rootNoItems [] (by decide)
